import Mathlib

/-!
Verification development for the octotiger Spack package recipe
(src/packages/octotiger/package.py).

The recipe consists of declarative data (versions, variants with activation
conditions, conditional dependency edges, conflict rules) together with one
emission routine `cmake_args`.  The declarative data and `cmake_args` are
embedded below directly from the source.  The surrounding resolver
(version picking, variant defaulting/validation, edge activation with the
narrower-constraint tie-break, and conflict aggregation) is not part of the
repository's source tree; it is modelled from the specification where noted.

Build directives are modelled as (flag-name, value) pairs: the source's
`self.define(k, v)` / literal `-Dk=v` strings are exactly such pairs.
-/

/-- Octotiger versions declared in the source (lines 23-36), ordered.
`master` and `develop` are branch versions that order above all numbered
releases, `master` is marked preferred. -/
inductive OVersion
  | v060 | v070 | v080 | v090 | v0100 | master | develop
deriving DecidableEq, Repr, Inhabited

/-- Numeric rank giving the version order. -/
def OVersion.rank : OVersion → Nat
  | .v060 => 0
  | .v070 => 1
  | .v080 => 2
  | .v090 => 3
  | .v0100 => 4
  | .master => 5
  | .develop => 6

/-- Satisfaction of an open-ended range "@a:" by version b. -/
def atLeast (a b : OVersion) : Bool := decide (a.rank ≤ b.rank)

/-- A version range over an externally versioned package (dependency
versions are encoded by numeric rank).  `none` bounds are open ends;
`lo`/`hi` are inclusive, matching Spack's "x:" / ":x" ranges. -/
structure VRange where
  lo : Option Nat
  hi : Option Nat
deriving DecidableEq, Repr

/-- Containment test for a version range. -/
def VRange.mem (r : VRange) (k : Nat) : Bool :=
  (match r.lo with
   | none => true
   | some l => decide (l ≤ k)) &&
  (match r.hi with
   | none => true
   | some h => decide (k ≤ h))

/-- Range inclusion: every version in `a` is in `b` (checked on the bounds,
as the spec requires O(1) comparisons). -/
def VRange.sub (a b : VRange) : Bool :=
  (match b.lo, a.lo with
   | none, _ => true
   | some _, none => false
   | some bl, some al => decide (bl ≤ al)) &&
  (match b.hi, a.hi with
   | none, _ => true
   | some _, none => false
   | some bh, some ah => decide (ah ≤ bh))

/-- Resolver errors.  Modelled from the spec: error taxonomy of section 7. -/
inductive RError
  | versionUnsatisfiable
  | invalidVariantValue (name : String)
  | conflictingEdges (pkg : String)
  | conflictRuleViolated (msgs : List (Option String))
deriving DecidableEq, Repr

/-- Modelled from the spec: the section 4.3 tie-break between two active
dependency edges targeting the same package — the narrower version
constraint wins; incomparable constraints are a CONFLICTING_EDGES error. -/
def tieBreak (pkg : String) (a b : VRange) : Except RError VRange :=
  if a.sub b then pure a
  else if b.sub a then pure b
  else .error (.conflictingEdges pkg)

/-- Modelled from the spec: combine the version ranges of all active edges
onto one target package by repeated tie-break, starting from "any". -/
def combineRanges (pkg : String) (rs : List VRange) : Except RError VRange :=
  rs.foldlM (tieBreak pkg) ⟨none, none⟩

/-- Modelled from the spec: activation-filter the declared edges for one
target package and combine the active version constraints. -/
def resolveEdgesRange (pkg : String) (edges : List (Bool × VRange)) :
    Except RError VRange :=
  combineRanges pkg ((edges.filter (fun e => e.1)).map (fun e => e.2))

/-- Resolved state of the kokkos dependency node: its picked version rank
and the GPU/HPX flags propagated from the root (source lines 122-151). -/
structure KDep where
  version : Nat
  cuda : Bool
  hpx : Bool
deriving DecidableEq, Repr

/-- Rank encoding of kokkos version 3.6.01 (source lines 132-133). -/
def k3601 : Nat := 3601

/-- Rank encoding of kokkos version 4.1.00 (source line 134). -/
def k4100 : Nat := 4100

/-- A fully resolved octotiger spec: the chosen version, the value of each
variant (conditional variants are `none` when their activation condition is
false, mirroring absence from Spack's variant mapping), the multi-valued
GPU target variants from the CudaPackage/ROCmPackage mixins, build
environment facts used by conflicts and `cmake_args` (compiler, target,
paths of the hip/dpcpp dependencies), and the resolved kokkos child. -/
structure RSpec where
  version : OVersion
  sycl : Option Bool
  cuda : Option Bool
  rocm : Option Bool
  kokkos : Option Bool
  griddim : String
  theta_minimum : String
  kokkos_hpx_kernels : Option Bool
  monopole_host_tasks : Option String
  multipole_host_tasks : Option String
  hydro_host_tasks : Option String
  simd_library : Option String
  simd_extension : Option String
  fast_fp_contract : Option Bool
  boost_multiprecision : Bool
  cxx20 : Bool
  cuda_arch : List String
  amdgpu_target : List String
  compiler : String
  compilerMajor : Nat
  target : String
  hipcc : String
  dpcpp_root : String
  hasDpcpp : Bool
  kokkosDep : Option KDep
deriving DecidableEq, Repr

/-- Build environment part of a resolution request (compiler and external
tool locations; these ride along unchanged into the resolved spec). -/
structure Env where
  compiler : String
  compilerMajor : Nat
  target : String
  hipcc : String
  dpcpp_root : String
deriving DecidableEq, Repr

/-- Requested variant overrides of a resolution request (absent entries
fall back to the declared defaults). -/
structure Overrides where
  sycl : Option Bool := none
  cuda : Option Bool := none
  rocm : Option Bool := none
  kokkos : Option Bool := none
  kokkos_hpx_kernels : Option Bool := none
  fast_fp_contract : Option Bool := none
  boost_multiprecision : Option Bool := none
  cxx20 : Option Bool := none
  griddim : Option String := none
  theta_minimum : Option String := none
  monopole_host_tasks : Option String := none
  multipole_host_tasks : Option String := none
  hydro_host_tasks : Option String := none
  simd_library : Option String := none
  simd_extension : Option String := none
  cuda_arch : Option (List String) := none
  amdgpu_target : Option (List String) := none
deriving Repr

/-- Modelled from the spec: section 4.6 step 2 for a boolean variant.  An
active variant takes the override or its default; an override for an
inactive variant is an INVALID_VARIANT_VALUE error, never silently
ignored. -/
def pickBool (act : Bool) (ov : Option Bool) (dflt : Bool) (n : String) :
    Except RError (Option Bool) :=
  if act then pure (some (ov.getD dflt))
  else
    match ov with
    | some _ => .error (.invalidVariantValue n)
    | none => pure none

/-- Modelled from the spec: section 4.6 step 2 for an always-active string
variant with an optional enumerated value domain. -/
def pickStr (ov : Option String) (dflt : String) (values : Option (List String))
    (n : String) : Except RError String :=
  match ov with
  | none => pure dflt
  | some x =>
    match values with
    | none => pure x
    | some vs => if x ∈ vs then pure x else .error (.invalidVariantValue n)

/-- Modelled from the spec: section 4.6 step 2 for a conditional string
variant. -/
def pickStrWhen (act : Bool) (ov : Option String) (dflt : String)
    (values : Option (List String)) (n : String) :
    Except RError (Option String) :=
  if act then (pickStr ov dflt values n).map some
  else
    match ov with
    | some _ => .error (.invalidVariantValue n)
    | none => pure none

/-- Modelled from the spec: a multi-valued variant selection holds a
non-empty set of values (default from the mixin is the sentinel "none"). -/
def pickMulti (ov : Option (List String)) (dflt : List String) (n : String) :
    Except RError (List String) :=
  match ov with
  | none => pure dflt
  | some [] => .error (.invalidVariantValue n)
  | some l => pure l

/-- The version constraints of the kokkos dependency edges and their
activation conditions, from source lines 132-160 (edges without a version
constraint carry the "any" range; the cuda_arch/amdgpu_target loop edges
collapse to their variant conditions since they carry no version bound). -/
def kokkosVersionEdges (v : OVersion) (kokkos khk sycl cuda rocm : Option Bool)
    (compiler : String) : List (Bool × VRange) :=
  [ (v == .v090 && kokkos == some true, ⟨none, some k3601⟩),
    (atLeast .v0100 v && kokkos == some true, ⟨some k3601, none⟩),
    (khk == some true && atLeast .v0100 v, ⟨some k4100, none⟩),
    (khk == some true && v == .v090, ⟨none, some k3601⟩),
    (sycl == some true && kokkos == some true, ⟨none, none⟩),
    (kokkos == some true && cuda == some false, ⟨none, none⟩),
    (kokkos == some true && cuda == some true && compiler == "gcc", ⟨none, none⟩),
    (kokkos == some true && cuda == some true, ⟨none, none⟩),
    (kokkos == some true && rocm == some true, ⟨none, none⟩) ]

/-- Modelled from the spec: resolve the kokkos dependency node — drop
inactive edges, tie-break the active version constraints, then pick the
highest available kokkos version inside the combined range (section 4.1
pick_default), propagating the root's cuda / kokkos_hpx_kernels selections
onto the child's `+cuda`/`+hpx` flags as the edges declare. -/
def resolveKokkosDep (kokkosVersions : List Nat) (v : OVersion)
    (kokkos khk sycl cuda rocm : Option Bool) (compiler : String) :
    Except RError (Option KDep) :=
  let edges := kokkosVersionEdges v kokkos khk sycl cuda rocm compiler
  let active := edges.filter (fun e => e.1)
  if active.isEmpty then pure none
  else do
    let range ← combineRanges "kokkos" (active.map (fun e => e.2))
    match (kokkosVersions.filter (fun k => range.mem k)).max? with
    | some k => pure (some ⟨k, cuda == some true, khk == some true⟩)
    | none => .error .versionUnsatisfiable

/-- The conflict rules of the package, from source lines 166-182, each as
an activation test over the resolved spec paired with the authored
diagnostic message (rules declared without a message carry `none`). -/
def conflictRules (r : RSpec) : List (Bool × Option String) :=
  [ (r.kokkos == some true &&
       (match r.kokkosDep with
        | some k => decide (k4100 ≤ k.version) && k.cuda && k.hpx
        | none => false) && r.compiler == "gcc",
     some ("Using hpx sender/receiver backend (kokkos@4.1.0:) with nvcc does not work."
           ++ "Use clang or downgrade Kokkos, or deactivate +hpx")),
    (r.compiler == "gcc" && r.compilerMajor == 12 && r.version == .v080,
     some "Octotiger release 0.8.0 does not work with gcc@12 - try an older one!"),
    (r.cuda == some true && r.cuda_arch.contains "none", none),
    (r.rocm == some true && r.version == .v080, none),
    (r.kokkos_hpx_kernels == some true && r.kokkos == some false, none),
    (r.simd_library == some "STD" && r.compiler == "gcc" && decide (r.compilerMajor ≤ 10), none),
    (r.simd_library == some "STD" && r.compiler == "clang", none),
    (r.simd_extension == some "SVE" && r.simd_library == some "STD" && r.cxx20 == false, none),
    (r.cuda == some true && r.rocm == some true,
     some "CUDA and ROCm are not compatible in Octo-Tiger."),
    (r.cuda == some true && decide (r.version.rank ≤ OVersion.rank .v060),
     some "Octo-Tiger version too old for CUDA."),
    (r.rocm == some true && r.kokkos == some false,
     some "ROCm support requires building with Kokkos for the correct arch flags.") ]

/-- Modelled from the spec: section 4.5 — evaluate every conflict rule on
the fully resolved spec and aggregate ALL violated rules' messages. -/
def conflictViolations (r : RSpec) : List (Option String) :=
  ((conflictRules r).filter (fun c => c.1)).map (fun c => c.2)

/-- Modelled from the spec: the top-level resolver of section 4.6 for the
octotiger root package.  Variant activation conditions and defaults are the
source's declarations (lines 50-94 plus the CudaPackage/ROCmPackage mixin
variants); version `master` is preferred when no version is requested
(source line 24).  Conflict violations are aggregated at the end. -/
def resolve (env : Env) (kokkosVersions : List Nat) (req : Option OVersion)
    (o : Overrides) : Except RError RSpec := do
  let v := req.getD .master
  let sycl ← pickBool (atLeast .v0100 v) o.sycl false "sycl"
  let cuda ← pickBool (atLeast .v070 v) o.cuda false "cuda"
  let rocm ← pickBool (atLeast .v090 v) o.rocm false "rocm"
  let kokkos ← pickBool (atLeast .v090 v) o.kokkos false "kokkos"
  let griddim ← pickStr o.griddim "8" none "griddim"
  let theta ← pickStr o.theta_minimum "0.34"
      (some ["0.5", "0.34", "0.26", "0.16"]) "theta_minimum"
  let khk ← pickBool (atLeast .v090 v && kokkos == some true)
      o.kokkos_hpx_kernels false "kokkos_hpx_kernels"
  let monopole ← pickStrWhen (atLeast .v0100 v) o.monopole_host_tasks "1"
      (some ["1", "4", "16"]) "monopole_host_tasks"
  let multipole ← pickStrWhen (atLeast .v0100 v) o.multipole_host_tasks "1"
      (some ["1", "4", "16", "64"]) "multipole_host_tasks"
  let hydro ← pickStrWhen (atLeast .v0100 v) o.hydro_host_tasks "1"
      none "hydro_host_tasks"
  let simdLib ← pickStrWhen (atLeast .v0100 v && kokkos == some true)
      o.simd_library "KOKKOS" (some ["KOKKOS", "STD"]) "simd_library"
  let simdExt ← pickStrWhen (atLeast .v090 v) o.simd_extension "DISCOVER"
      (some ["DISCOVER", "SCALAR", "AVX", "AVX512", "NEON", "SVE"]) "simd_extension"
  let ffc ← pickBool (atLeast .v090 v) o.fast_fp_contract false "fast_fp_contract"
  let bmp := o.boost_multiprecision.getD false
  let cxx20 := o.cxx20.getD false
  let cudaArch ← pickMulti o.cuda_arch ["none"] "cuda_arch"
  let amdgpu ← pickMulti o.amdgpu_target ["none"] "amdgpu_target"
  let kdep ← resolveKokkosDep kokkosVersions v kokkos khk sycl cuda rocm env.compiler
  let r : RSpec :=
    { version := v, sycl := sycl, cuda := cuda, rocm := rocm, kokkos := kokkos,
      griddim := griddim, theta_minimum := theta, kokkos_hpx_kernels := khk,
      monopole_host_tasks := monopole, multipole_host_tasks := multipole,
      hydro_host_tasks := hydro, simd_library := simdLib,
      simd_extension := simdExt, fast_fp_contract := ffc,
      boost_multiprecision := bmp, cxx20 := cxx20, cuda_arch := cudaArch,
      amdgpu_target := amdgpu, compiler := env.compiler,
      compilerMajor := env.compilerMajor, target := env.target,
      hipcc := env.hipcc, dpcpp_root := env.dpcpp_root,
      hasDpcpp := sycl == some true, kokkosDep := kdep }
  let viol := conflictViolations r
  if viol.isEmpty then pure r else .error (.conflictRuleViolated viol)

/-- A build directive: one (flag-name, value) pair, the payload of the
source's `self.define(k, v)` and literal `-Dk=v` strings. -/
abbrev Directive := String × String

/-- Errors raised inside the source's `cmake_args`: explicit SpackError
raises, and the Python `int(...)`, `variants[...]` and `list[0]` failures
(ValueError / KeyError / IndexError). -/
inductive EmitError
  | spackError (msg : String)
  | valueError (lit : String)
  | keyError (name : String)
  | indexError (name : String)
deriving DecidableEq, Repr

/-- CMake rendering of a boolean value, as in Spack's `define`. -/
def onOff (b : Bool) : String := if b then "ON" else "OFF"

/-- Source `define_from_variant` for a boolean variant: a variant absent
from the spec (inactive activation condition) contributes no directive. -/
def dfvB (name : String) (v : Option Bool) : List Directive :=
  match v with
  | none => []
  | some b => [(name, onOff b)]

/-- Source `define_from_variant` for a single-valued string variant. -/
def dfvS (name : String) (v : Option String) : List Directive :=
  match v with
  | none => []
  | some s => [(name, s)]

/-- Decimal value of one digit character (codepoint arithmetic keeps this
reducible inside the kernel). -/
def digitVal (c : Char) : Option Nat :=
  if 48 ≤ c.toNat ∧ c.toNat ≤ 57 then some (c.toNat - 48) else none

/-- Accumulating decimal reading of a digit run. -/
def digitsToNatAux : List Char → Nat → Option Nat
  | [], acc => some acc
  | c :: rest, acc =>
    match digitVal c with
    | some d => digitsToNatAux rest (10 * acc + d)
    | none => none

/-- A non-empty all-digit character list read as a natural number. -/
def digitsToNat (l : List Char) : Option Nat :=
  match l with
  | [] => none
  | _ => digitsToNatAux l 0

/-- Model of Python `int(...)` on a decimal string: an optional sign
followed by at least one digit (the only forms variant values take). -/
def pyToInt (s : String) : Option Int :=
  match s.data with
  | '-' :: rest => (digitsToNat rest).map (fun n => -(n : Int))
  | '+' :: rest => (digitsToNat rest).map (fun n => (n : Int))
  | l => (digitsToNat l).map (fun n => (n : Int))

/-- Python `int(...)` on a variant value: parse or raise ValueError. -/
def pyInt (s : String) : Except EmitError Int :=
  match pyToInt s with
  | some n => pure n
  | none => .error (.valueError s)

/-- Source lines 190-197: the CUDA/Kokkos defines and, under `+cuda`, the
two cuda_arch directives built from the first cuda_arch value (skipped when
that value is the sentinel "none"). -/
def cudaKokkosArgs (s : RSpec) : Except EmitError (List Directive) :=
  if s.cuda == some true then
    match s.cuda_arch.head? with
    | none => .error (.indexError "cuda_arch")
    | some arch =>
      if arch == "none" then
        pure (dfvB "OCTOTIGER_WITH_CUDA" s.cuda ++
              dfvB "OCTOTIGER_WITH_KOKKOS" s.kokkos)
      else
        pure (dfvB "OCTOTIGER_WITH_CUDA" s.cuda ++
              dfvB "OCTOTIGER_WITH_KOKKOS" s.kokkos ++
              [("OCTOTIGER_CUDA_ARCH", "sm_" ++ arch),
               ("CMAKE_CUDA_ARCHITECTURES", arch)])
  else
    pure (dfvB "OCTOTIGER_WITH_CUDA" s.cuda ++
          dfvB "OCTOTIGER_WITH_KOKKOS" s.kokkos)

/-- Source lines 200-206: HIP define and the CMAKE_CXX_COMPILER overrides
for `+rocm` (hipcc) and `+sycl ^dpcpp` (dpcpp clang++). -/
def hipSyclArgs (s : RSpec) : List Directive :=
  dfvB "OCTOTIGER_WITH_HIP" s.rocm ++
  (if s.rocm == some true then [("CMAKE_CXX_COMPILER", s.hipcc)] else []) ++
  (if s.sycl == some true && s.hasDpcpp then
    [("CMAKE_CXX_COMPILER", s.dpcpp_root ++ "/bin/clang++")]
  else [])

/-- The SpackError message of source lines 215-216 (the source's two
adjacent string literals concatenate without a space). -/
def simdMsg : String :=
  "simd_extension != [DISCOVER, SCALAR] requires a newerOcto-Tiger version (>0.9.0)"

/-- Source lines 209-221: the per-version-range SIMD dispatch.  At exactly
version 0.9.0 only DISCOVER/SCALAR are representable, as the force-scalar
toggle; every other case raises; at any other version the two variants map
to the OCTOTIGER_KOKKOS_SIMD_* defines. -/
def simdArgs (s : RSpec) : Except EmitError (List Directive) :=
  if s.version == .v090 then
    if s.simd_extension == some "DISCOVER" then
      pure [("OCTOTIGER_WITH_FORCE_SCALAR_KOKKOS_SIMD", "OFF")]
    else if s.simd_extension == some "SCALAR" then
      pure [("OCTOTIGER_WITH_FORCE_SCALAR_KOKKOS_SIMD", "ON")]
    else .error (.spackError simdMsg)
  else
    pure (dfvS "OCTOTIGER_KOKKOS_SIMD_LIBRARY" s.simd_library ++
          dfvS "OCTOTIGER_KOKKOS_SIMD_EXTENSION" s.simd_extension)

/-- Source lines 222-233: the HPX-executor defines (from
kokkos_hpx_kernels) and the three task-count defines. -/
def executorTaskArgs (s : RSpec) : List Directive :=
  dfvB "OCTOTIGER_WITH_MONOPOLE_HOST_HPX_EXECUTOR" s.kokkos_hpx_kernels ++
  dfvB "OCTOTIGER_WITH_MULTIPOLE_HOST_HPX_EXECUTOR" s.kokkos_hpx_kernels ++
  dfvB "OCTOTIGER_WITH_HYDRO_HOST_HPX_EXECUTOR" s.kokkos_hpx_kernels ++
  dfvS "OCTOTIGER_WITH_KOKKOS_MULTIPOLE_TASKS" s.multipole_host_tasks ++
  dfvS "OCTOTIGER_WITH_KOKKOS_MONOPOLE_TASKS" s.monopole_host_tasks ++
  dfvS "OCTOTIGER_WITH_KOKKOS_HYDRO_TASKS" s.hydro_host_tasks

/-- One precondition check of source lines 236-241: read the task variant
(KeyError when absent), parse it with `int` and raise when the count
exceeds 1 without the HPX execution space. -/
def taskCheckOne (name : String) (v : Option String) (msg : String) :
    Except EmitError Unit := do
  match v with
  | none => .error (.keyError name)
  | some x =>
    let n ← pyInt x
    if 1 < n then .error (.spackError msg) else pure ()

/-- Source lines 234-241: at version 0.10.0 or later with
kokkos_hpx_kernels present and false, a task count above 1 raises before
any argument list is returned. -/
def taskPrecheck (s : RSpec) : Except EmitError Unit :=
  if s.kokkos_hpx_kernels == some false && atLeast .v0100 s.version then do
    taskCheckOne "multipole_host_tasks" s.multipole_host_tasks
      "multipole_host_tasks > 1 requires +kokkos_hpx_kernels"
    taskCheckOne "monopole_host_tasks" s.monopole_host_tasks
      "monopole_host_tasks > 1 requires +kokkos_hpx_kernels"
    taskCheckOne "hydro_host_tasks" s.hydro_host_tasks
      "hydro_host_tasks > 1 requires +kokkos_hpx_kernels"
  else pure ()

/-- Source lines 242-246: the Vc defines and the a64fx c++20 forcing. -/
def vcTargetArgs (s : RSpec) : List Directive :=
  [("OCTOTIGER_WITH_VC", "ON"), ("OCTOTIGER_WITH_LEGACY_VC", "OFF")] ++
  (if s.target == "a64fx" then [("OCTOTIGER_WITH_CXX20", "ON")] else [])

/-- The SpackError message of source lines 253-254. -/
def griddimTestsMsg : String :=
  "Octo-Tiger tests only work with griddim=8 and griddim=16. Disable tests or change griddim!"

/-- Source lines 250-259: the tests define, the griddim/tests guard, and
the blast-test toggle. -/
def testArgs (s : RSpec) (runTests : Bool) : Except EmitError (List Directive) :=
  let t := [("OCTOTIGER_WITH_TESTS", onOff runTests)]
  if runTests && !(s.griddim == "8" || s.griddim == "16") then
    .error (.spackError griddimTestsMsg)
  else
    let blastOff := !runTests ||
      (s.compiler == "arm" || s.compiler == "clang" || s.target == "neoverse_v2" ||
       s.rocm == some true || s.sycl == some true || s.target == "a64fx")
    pure (t ++ [("OCTOTIGER_WITH_BLAST_TEST", if blastOff then "OFF" else "ON")])

/-- Source lines 262-270: the compute configuration — fp-contract, the raw
griddim and theta_minimum directives, the field bound, the ilist toggle
computed from `int(griddim)` (raising on a non-integer value), and the
arch flag (whose value keeps the source's trailing space). -/
def computeArgs (s : RSpec) : Except EmitError (List Directive) := do
  let a := dfvB "OCTOTIGER_WITH_FAST_FP_CONTRACT" s.fast_fp_contract ++
    [("OCTOTIGER_WITH_GRIDDIM", s.griddim),
     ("OCTOTIGER_THETA_MINIMUM", s.theta_minimum),
     ("OCTOTIGER_WITH_MAX_NUMBER_FIELDS", "15")]
  let g ← pyInt s.griddim
  let ilist := if 20 < g then [("OCTOTIGER_DISABLE_ILIST", "ON")]
    else [("OCTOTIGER_DISABLE_ILIST", "OFF")]
  pure (a ++ ilist ++ [("OCTOTIGER_ARCH_FLAG", "-march=native ")])

/-- Source lines 273-278: the closing miscellaneous defines. -/
def miscArgs (s : RSpec) : List Directive :=
  [("OCTOTIGER_WITH_UNBUFFERED_STDOUT", "OFF"),
   ("CMAKE_EXPORT_COMPILE_COMMANDS", "ON"),
   ("OCTOTIGER_WITH_BOOST_MULTIPRECISION", onOff s.boost_multiprecision),
   ("OCTOTIGER_WITH_CXX20", onOff s.cxx20)]

/-- The whole `cmake_args` of source lines 186-280: the sections above in
statement order; any raise discards the argument list entirely. -/
def cmake_args (s : RSpec) (runTests : Bool) : Except EmitError (List Directive) := do
  let a ← cudaKokkosArgs s
  let c ← simdArgs s
  taskPrecheck s
  let f ← testArgs s runTests
  let g ← computeArgs s
  pure (a ++ hipSyclArgs s ++ c ++ executorTaskArgs s ++ vcTargetArgs s ++
        f ++ g ++ miscArgs s)

/-- True when the task variant's value parses as an integer above 1. -/
def gt1 (o : Option String) : Bool :=
  match o.bind pyToInt with
  | some n => decide (1 < n)
  | none => false

/-- Some of the three task-count variants holds a value above 1. -/
def anyTaskGT1 (r : RSpec) : Bool :=
  gt1 r.multipole_host_tasks || gt1 r.monopole_host_tasks || gt1 r.hydro_host_tasks

/-- The emission result is one of the three task-precondition failures of
source lines 236-241 (the EMIT_PRECONDITION errors of the spec). -/
def isEmitPrecondition (x : Except EmitError (List Directive)) : Prop :=
  x = .error (.spackError "multipole_host_tasks > 1 requires +kokkos_hpx_kernels") ∨
  x = .error (.spackError "monopole_host_tasks > 1 requires +kokkos_hpx_kernels") ∨
  x = .error (.spackError "hydro_host_tasks > 1 requires +kokkos_hpx_kernels")

/-- Success test for an emission result. -/
def isOkB : Except EmitError (List Directive) → Bool
  | .ok _ => true
  | .error _ => false

/-- Inversion of an Except bind that succeeded. -/
theorem exceptBind_ok {ε α β : Type} {x : Except ε α} {f : α → Except ε β} {b : β} :
    (x >>= f) = .ok b ↔ ∃ a, x = .ok a ∧ f a = .ok b := by
  cases x <;> simp [Bind.bind, Except.bind]

/-- Inversion of an Except map that succeeded. -/
theorem exceptMap_ok {ε α β : Type} {x : Except ε α} {f : α → β} {b : β} :
    (Except.map f x) = .ok b ↔ ∃ a, x = .ok a ∧ f a = b := by
  cases x <;> simp [Except.map]

/-- A boolean variant inactive at the resolved version resolves to `none`. -/
theorem pickBool_ok_false {ov : Option Bool} {d : Bool} {n : String}
    {res : Option Bool} (h : pickBool false ov d n = .ok res) : res = none := by
  unfold pickBool at h
  cases ov <;> simp_all [pure, Except.pure]

/-- A boolean variant active at the resolved version resolves to the
override when given, the default otherwise. -/
theorem pickBool_ok_true {ov : Option Bool} {d : Bool} {n : String}
    {res : Option Bool} (h : pickBool true ov d n = .ok res) :
    res = some (ov.getD d) := by
  unfold pickBool at h
  simp_all [pure, Except.pure]

/-- A conditional string variant inactive at the resolved version resolves
to `none`. -/
theorem pickStrWhen_ok_false {ov : Option String} {d : String}
    {vals : Option (List String)} {n : String} {res : Option String}
    (h : pickStrWhen false ov d vals n = .ok res) : res = none := by
  unfold pickStrWhen at h
  cases ov <;> simp_all [pure, Except.pure]

/-- A conditional string variant active at the resolved version resolves to
some value. -/
theorem pickStrWhen_ok_true {ov : Option String} {d : String}
    {vals : Option (List String)} {n : String} {res : Option String}
    (h : pickStrWhen true ov d vals n = .ok res) : ∃ x, res = some x := by
  unfold pickStrWhen pickStr at h
  rcases ov with _ | x
  · exact ⟨d, by simp_all [pure, Except.pure, Except.map]⟩
  · rcases vals with _ | vs
    · exact ⟨x, by simp_all [pure, Except.pure, Except.map]⟩
    · by_cases hx : x ∈ vs
      · exact ⟨x, by simp_all [pure, Except.pure, Except.map]⟩
      · simp_all [pure, Except.pure, Except.map]

/-- A value resolved for an enumerated conditional variant lies in the
declared domain, provided the default does. -/
theorem pickStrWhen_ok_mem {act : Bool} {ov : Option String} {d : String}
    {vs : List String} {n : String} {res : Option String} {x : String}
    (h : pickStrWhen act ov d (some vs) n = .ok res) (hres : res = some x)
    (hd : d ∈ vs) : x ∈ vs := by
  subst hres
  cases act
  · have := pickStrWhen_ok_false h
    simp at this
  · unfold pickStrWhen pickStr at h
    rcases ov with _ | y
    · simp_all [pure, Except.pure, Except.map]
    · by_cases hy : y ∈ vs <;> simp_all [pure, Except.pure, Except.map]

/-- A multi-valued variant resolves to a non-empty selection when the
default is non-empty. -/
theorem pickMulti_ok_ne_nil {ov : Option (List String)} {d : List String}
    {n : String} {l : List String} (h : pickMulti ov d n = .ok l)
    (hd : d ≠ []) : l ≠ [] := by
  unfold pickMulti at h
  rcases ov with _ | (_ | ⟨x, xs⟩)
  · simp only [pure, Except.pure, Except.ok.injEq] at h
    subst h
    exact hd
  · simp at h
  · simp only [pure, Except.pure, Except.ok.injEq] at h
    subst h
    simp

/-- Range inclusion is reflexive. -/
theorem VRange.sub_refl (a : VRange) : a.sub a = true := by
  rcases a with ⟨lo, hi⟩
  rcases lo <;> rcases hi <;> simp [VRange.sub]

/-- Range inclusion is transitive. -/
theorem VRange.sub_trans {a b c : VRange} (h1 : a.sub b = true)
    (h2 : b.sub c = true) : a.sub c = true := by
  rcases a with ⟨alo, ahi⟩
  rcases b with ⟨blo, bhi⟩
  rcases c with ⟨clo, chi⟩
  rcases alo <;> rcases ahi <;> rcases blo <;> rcases bhi <;> rcases clo <;>
    rcases chi <;> simp_all [VRange.sub] <;> omega

/-- Membership is preserved into any superset range. -/
theorem VRange.mem_of_sub {a b : VRange} {k : Nat} (h : a.sub b = true)
    (hm : a.mem k = true) : b.mem k = true := by
  rcases a with ⟨alo, ahi⟩
  rcases b with ⟨blo, bhi⟩
  rcases alo <;> rcases ahi <;> rcases blo <;> rcases bhi <;>
    simp_all [VRange.sub, VRange.mem] <;> omega

/-- A successful tie-break yields a range included in both inputs. -/
theorem tieBreak_ok {p : String} {a b c : VRange} (h : tieBreak p a b = .ok c) :
    c.sub a = true ∧ c.sub b = true := by
  unfold tieBreak at h
  by_cases h1 : a.sub b = true
  · simp [h1, pure, Except.pure] at h
    subst h
    exact ⟨VRange.sub_refl a, h1⟩
  · by_cases h2 : b.sub a = true <;>
      simp [h1, h2, pure, Except.pure] at h
    subst h
    exact ⟨h2, VRange.sub_refl b⟩

/-- A successful tie-break fold yields a range included in the start range
and in every folded range. -/
theorem foldlM_tieBreak_sub {p : String} :
    ∀ (rs : List VRange) (acc res : VRange),
      rs.foldlM (tieBreak p) acc = .ok res →
      res.sub acc = true ∧ ∀ x ∈ rs, res.sub x = true := by
  intro rs
  induction rs with
  | nil =>
    intro acc res h
    simp [List.foldlM, pure, Except.pure] at h
    subst h
    exact ⟨VRange.sub_refl acc, by simp⟩
  | cons r rs ih =>
    intro acc res h
    rw [List.foldlM_cons] at h
    rcases exceptBind_ok.mp h with ⟨c, hc, hfold⟩
    rcases ih c res hfold with ⟨h1, h2⟩
    rcases tieBreak_ok hc with ⟨ha, hb⟩
    refine ⟨VRange.sub_trans h1 ha, ?_⟩
    intro x hx
    rcases List.mem_cons.mp hx with rfl | hx
    · exact VRange.sub_trans h1 hb
    · exact h2 x hx

/-- A successfully combined range is included in every constituent. -/
theorem combineRanges_sub {p : String} {rs : List VRange} {res : VRange}
    (h : combineRanges p rs = .ok res) : ∀ x ∈ rs, res.sub x = true :=
  (foldlM_tieBreak_sub rs ⟨none, none⟩ res h).2

/-- A kokkos dependency resolved to a concrete node has its version inside
the range of every active kokkos edge. -/
theorem resolveKokkosDep_some_mem {kvs : List Nat} {v : OVersion}
    {kokkos khk sycl cuda rocm : Option Bool} {comp : String} {k : KDep}
    (h : resolveKokkosDep kvs v kokkos khk sycl cuda rocm comp = .ok (some k)) :
    ∀ e ∈ kokkosVersionEdges v kokkos khk sycl cuda rocm comp, e.1 = true →
      e.2.mem k.version = true := by
  intro e he hact
  simp only [resolveKokkosDep] at h
  by_cases hemp :
      ((kokkosVersionEdges v kokkos khk sycl cuda rocm comp).filter
        (fun e => e.1)).isEmpty
  · rw [if_pos hemp] at h
    simp [pure, Except.pure] at h
  · rw [if_neg hemp] at h
    rcases exceptBind_ok.mp h with ⟨range, hr, hrest⟩
    cases hmax : (kvs.filter (fun x => range.mem x)).max? with
    | none =>
      rw [hmax] at hrest
      simp at hrest
    | some kv =>
      rw [hmax] at hrest
      simp only [pure, Except.pure, Except.ok.injEq, Option.some.injEq] at hrest
      have hkv_mem : kv ∈ kvs.filter (fun x => range.mem x) :=
        List.max?_mem (fun a b => max_choice a b) hmax
      have hkv_range : range.mem kv = true := (List.mem_filter.mp hkv_mem).2
      have hsub : range.sub e.2 = true := by
        apply combineRanges_sub hr
        exact List.mem_map.mpr ⟨e, List.mem_filter.mpr ⟨he, hact⟩, rfl⟩
      have hmem := VRange.mem_of_sub hsub hkv_range
      rw [← hrest]
      exact hmem

/-- With kokkos not selected (and hence the HPX-kernel toggle not
selected), no kokkos edge is active and no kokkos child is resolved. -/
theorem resolveKokkosDep_ok_none {kvs : List Nat} {v : OVersion}
    {kokkos khk sycl cuda rocm : Option Bool} {comp : String} {kd : Option KDep}
    (h : resolveKokkosDep kvs v kokkos khk sycl cuda rocm comp = .ok kd)
    (hk : (kokkos == some true) = false) (hkh : (khk == some true) = false) :
    kd = none := by
  simp only [resolveKokkosDep, kokkosVersionEdges, hk, hkh, Bool.false_and,
    Bool.and_false, List.filter, List.isEmpty_nil, if_true, pure, Except.pure,
    Except.ok.injEq] at h
  exact h.symm

/-- No conflict rule fires on a spec whose violation list is empty. -/
theorem conflictRules_all_false {r : RSpec} (h : conflictViolations r = []) :
    ∀ c ∈ conflictRules r, c.1 = false := by
  intro c hc
  unfold conflictViolations at h
  have h2 := List.map_eq_nil_iff.mp h
  have h3 := List.filter_eq_nil_iff.mp h2 c hc
  simpa using h3

/-- The source's `conflicts("+cuda", when="cuda_arch=none")` (line 171): a
conflict-free spec with cuda selected has no "none" among its cuda_arch
values. -/
theorem cuda_arch_no_none {r : RSpec} (h : conflictViolations r = [])
    (hc : r.cuda = some true) : r.cuda_arch.contains "none" = false := by
  have hm : ((r.cuda == some true && r.cuda_arch.contains "none",
      (none : Option String)) ∈ conflictRules r) := by
    unfold conflictRules
    exact List.mem_cons_of_mem _ (List.mem_cons_of_mem _ (List.mem_cons_self _ _))
  have hf := conflictRules_all_false h _ hm
  simpa [hc] using hf

/-- Invariants of every successful resolution: variants inactive at the
resolved version are absent; task variants at 0.10.0 or later are present
with domain-checked values; the cuda_arch selection is non-empty; no
conflict rule fires; the HPX-kernel toggle is absent without kokkos; and
the kokkos child is the edge-resolution outcome for the resolved state. -/
theorem resolve_ok_inv {env : Env} {kvs : List Nat} {req : Option OVersion}
    {o : Overrides} {r : RSpec} (h : resolve env kvs req o = .ok r) :
    (atLeast .v0100 r.version = false → r.sycl = none) ∧
    (atLeast .v070 r.version = false → r.cuda = none) ∧
    (atLeast .v090 r.version = false →
       r.rocm = none ∧ r.kokkos = none ∧ r.simd_extension = none) ∧
    (atLeast .v0100 r.version = true →
       (∃ m, r.multipole_host_tasks = some m ∧ m ∈ ["1", "4", "16", "64"]) ∧
       (∃ m, r.monopole_host_tasks = some m ∧ m ∈ ["1", "4", "16"]) ∧
       (∃ m, r.hydro_host_tasks = some m)) ∧
    r.cuda_arch ≠ [] ∧
    conflictViolations r = [] ∧
    (r.kokkos ≠ some true → r.kokkos_hpx_kernels = none) ∧
    resolveKokkosDep kvs r.version r.kokkos r.kokkos_hpx_kernels r.sycl r.cuda
      r.rocm r.compiler = .ok r.kokkosDep := by
  simp only [resolve, exceptBind_ok] at h
  obtain ⟨sycl, hsycl, cuda, hcuda, rocm, hrocm, kokkos, hkokkos, griddim,
    hgriddim, theta, htheta, khk, hkhk, monopole, hmono, multipole, hmulti,
    hydro, hhydro, simdLib, hslib, simdExt, hsext, ffc, hffc, cudaArch, hca,
    amdgpu, hamd, kdep, hkdep, hfin⟩ := h
  split at hfin
  case isFalse => simp at hfin
  case isTrue hemp =>
  simp only [pure, Except.pure, Except.ok.injEq] at hfin
  subst hfin
  refine ⟨?_, ?_, ?_, ?_, ?_, ?_, ?_, ?_⟩
  · intro hv
    dsimp only at hv ⊢
    rw [hv] at hsycl
    exact pickBool_ok_false hsycl
  · intro hv
    dsimp only at hv ⊢
    rw [hv] at hcuda
    exact pickBool_ok_false hcuda
  · intro hv
    dsimp only at hv ⊢
    rw [hv] at hrocm hkokkos hsext
    exact ⟨pickBool_ok_false hrocm, pickBool_ok_false hkokkos,
      pickStrWhen_ok_false hsext⟩
  · intro hv
    dsimp only at hv ⊢
    rw [hv] at hmono hmulti hhydro
    obtain ⟨mu, hmu⟩ := pickStrWhen_ok_true hmulti
    obtain ⟨mo, hmo⟩ := pickStrWhen_ok_true hmono
    obtain ⟨hy, hhy⟩ := pickStrWhen_ok_true hhydro
    refine ⟨⟨mu, hmu, ?_⟩, ⟨mo, hmo, ?_⟩, ⟨hy, hhy⟩⟩
    · exact pickStrWhen_ok_mem hmulti hmu (by simp)
    · exact pickStrWhen_ok_mem hmono hmo (by simp)
  · dsimp only
    exact pickMulti_ok_ne_nil hca (by simp)
  · dsimp only
    exact List.isEmpty_iff.mp hemp
  · intro hne
    dsimp only at hne ⊢
    have hbe : (kokkos == some true) = false := by
      simpa using hne
    rw [hbe, Bool.and_false] at hkhk
    exact pickBool_ok_false hkhk
  · dsimp only
    exact hkdep

/-- Bind on a successful Except computes the continuation. -/
theorem exceptBind_pure_ok {ε α β : Type} (a : α) (f : α → Except ε β) :
    (Except.ok a >>= f) = f a := rfl

/-- Bind on a failed Except keeps the failure. -/
theorem exceptBind_err {ε α β : Type} (e : ε) (f : α → Except ε β) :
    ((Except.error e : Except ε α) >>= f) = .error e := rfl

/-- A version at least 0.10.0 is not 0.9.0. -/
theorem v0100_ne_v090 {v : OVersion} (h : atLeast .v0100 v = true) :
    (v == OVersion.v090) = false := by
  revert h
  cases v <;> decide

/-- Decomposition of a successful emission into its section results, in
statement order. -/
theorem cmake_args_ok_inv {s : RSpec} {rt : Bool} {l : List Directive}
    (h : cmake_args s rt = .ok l) :
    ∃ a c f g, cudaKokkosArgs s = .ok a ∧ simdArgs s = .ok c ∧
      taskPrecheck s = .ok () ∧ testArgs s rt = .ok f ∧ computeArgs s = .ok g ∧
      l = a ++ hipSyclArgs s ++ c ++ executorTaskArgs s ++ vcTargetArgs s ++
        f ++ g ++ miscArgs s := by
  simp only [cmake_args, exceptBind_ok] at h
  obtain ⟨a, ha, c, hc, u, hu, f, hf, g, hg, hl⟩ := h
  cases u
  simp only [pure, Except.pure, Except.ok.injEq] at hl
  exact ⟨a, c, f, g, ha, hc, hu, hf, hg, hl.symm⟩

/-- A failing task precheck fails the whole emission with its error. -/
theorem cmake_args_err_of_taskPrecheck {s : RSpec} {rt : Bool} {e : EmitError}
    {a c : List Directive} (ha : cudaKokkosArgs s = .ok a)
    (hc : simdArgs s = .ok c) (ht : taskPrecheck s = .error e) :
    cmake_args s rt = .error e := by
  simp [cmake_args, ha, hc, ht, exceptBind_pure_ok, exceptBind_err]

/-- The CUDA/Kokkos section cannot fail when the cuda_arch selection is
non-empty. -/
theorem cudaKokkosArgs_ok {s : RSpec} (h : s.cuda_arch ≠ []) :
    ∃ a, cudaKokkosArgs s = .ok a := by
  cases hres : cudaKokkosArgs s with
  | ok a => exact ⟨a, rfl⟩
  | error e =>
    exfalso
    unfold cudaKokkosArgs at hres
    split at hres
    · rcases hl : s.cuda_arch with _ | ⟨arch, rest⟩
      · exact h hl
      · rw [hl] at hres
        simp only [List.head?_cons] at hres
        split at hres <;> simp [pure, Except.pure] at hres
    · simp [pure, Except.pure] at hres

/-- Away from version 0.9.0 the SIMD section emits the two variant
defines. -/
theorem simdArgs_ne_v090 {s : RSpec} (h : (s.version == OVersion.v090) = false) :
    simdArgs s = .ok (dfvS "OCTOTIGER_KOKKOS_SIMD_LIBRARY" s.simd_library ++
      dfvS "OCTOTIGER_KOKKOS_SIMD_EXTENSION" s.simd_extension) := by
  simp [simdArgs, h, pure, Except.pure]

/-- At version 0.9.0, DISCOVER maps to the force-scalar toggle OFF. -/
theorem simdArgs_v090_discover {s : RSpec} (hv : s.version = .v090)
    (hx : s.simd_extension = some "DISCOVER") :
    simdArgs s = .ok [("OCTOTIGER_WITH_FORCE_SCALAR_KOKKOS_SIMD", "OFF")] := by
  simp [simdArgs, hv, hx, pure, Except.pure]

/-- At version 0.9.0, SCALAR maps to the force-scalar toggle ON. -/
theorem simdArgs_v090_scalar {s : RSpec} (hv : s.version = .v090)
    (hx : s.simd_extension = some "SCALAR") :
    simdArgs s = .ok [("OCTOTIGER_WITH_FORCE_SCALAR_KOKKOS_SIMD", "ON")] := by
  simp [simdArgs, hv, hx, pure, Except.pure]

/-- At version 0.9.0 any other SIMD selection raises. -/
theorem simdArgs_v090_bad {s : RSpec} (hv : s.version = .v090)
    (h1 : s.simd_extension ≠ some "DISCOVER")
    (h2 : s.simd_extension ≠ some "SCALAR") :
    simdArgs s = .error (.spackError simdMsg) := by
  simp [simdArgs, hv, h1, h2]

/-- With tests enabled and griddim outside {8, 16}, the test section
raises. -/
theorem testArgs_err {s : RSpec} (h8 : s.griddim ≠ "8") (h16 : s.griddim ≠ "16") :
    testArgs s true = .error (.spackError griddimTestsMsg) := by
  simp [testArgs, h8, h16]

/-- A non-integer griddim makes the compute section raise ValueError. -/
theorem computeArgs_err {s : RSpec} (h : pyToInt s.griddim = none) :
    computeArgs s = .error (.valueError s.griddim) := by
  simp [computeArgs, pyInt, h, exceptBind_err]

/-- Every successful compute section contains the griddim directive. -/
theorem computeArgs_ok_mem {s : RSpec} {g : List Directive}
    (h : computeArgs s = .ok g) : ("OCTOTIGER_WITH_GRIDDIM", s.griddim) ∈ g := by
  simp only [computeArgs, exceptBind_ok] at h
  obtain ⟨n, hn, hl⟩ := h
  simp only [pure, Except.pure, Except.ok.injEq] at hl
  subst hl
  simp [List.mem_append]

/-- A boolean define carries its flag name. -/
theorem dfvB_key {name : String} {v : Option Bool} {x : Directive}
    (hx : x ∈ dfvB name v) : x.1 = name := by
  cases v <;> simp [dfvB] at hx
  simp [hx]

/-- A string define carries its flag name. -/
theorem dfvS_key {name : String} {v : Option String} {x : Directive}
    (hx : x ∈ dfvS name v) : x.1 = name := by
  cases v <;> simp [dfvS] at hx
  simp [hx]

/-- Flag names emitted by the HIP/SYCL section. -/
theorem hipSyclArgs_key {s : RSpec} {x : Directive} (hx : x ∈ hipSyclArgs s) :
    x.1 = "OCTOTIGER_WITH_HIP" ∨ x.1 = "CMAKE_CXX_COMPILER" := by
  unfold hipSyclArgs at hx
  rcases List.mem_append.mp hx with hx | hx
  · rcases List.mem_append.mp hx with hx | hx
    · exact Or.inl (dfvB_key hx)
    · split at hx
      · simp at hx
        exact Or.inr (by simp [hx])
      · simp at hx
  · split at hx
    · simp at hx
      exact Or.inr (by simp [hx])
    · simp at hx

/-- With cuda absent, the CUDA/Kokkos section only names the Kokkos flag. -/
theorem cudaKokkosArgs_keys_cuda_none {s : RSpec} {a : List Directive}
    {x : Directive} (hcu : s.cuda = none) (ha : cudaKokkosArgs s = .ok a)
    (hx : x ∈ a) : x.1 = "OCTOTIGER_WITH_KOKKOS" := by
  unfold cudaKokkosArgs at ha
  rw [hcu] at ha
  simp only [pure, Except.pure] at ha
  have ha2 : dfvB "OCTOTIGER_WITH_CUDA" none ++
      dfvB "OCTOTIGER_WITH_KOKKOS" s.kokkos = a := by
    exact Except.ok.inj ha
  rw [← ha2] at hx
  rcases List.mem_append.mp hx with hx | hx
  · simp [dfvB] at hx
  · exact dfvB_key hx

/-- Flag names emitted by the SIMD section. -/
theorem simdArgs_key {s : RSpec} {c : List Directive} {x : Directive}
    (hc : simdArgs s = .ok c) (hx : x ∈ c) :
    x.1 = "OCTOTIGER_WITH_FORCE_SCALAR_KOKKOS_SIMD" ∨
    x.1 = "OCTOTIGER_KOKKOS_SIMD_LIBRARY" ∨
    x.1 = "OCTOTIGER_KOKKOS_SIMD_EXTENSION" := by
  unfold simdArgs at hc
  split at hc
  · split at hc
    · simp only [pure, Except.pure, Except.ok.injEq] at hc
      subst hc
      simp at hx
      exact Or.inl (by simp [hx])
    · split at hc
      · simp only [pure, Except.pure, Except.ok.injEq] at hc
        subst hc
        simp at hx
        exact Or.inl (by simp [hx])
      · simp at hc
  · simp only [pure, Except.pure, Except.ok.injEq] at hc
    subst hc
    rcases List.mem_append.mp hx with hx | hx
    · exact Or.inr (Or.inl (dfvS_key hx))
    · exact Or.inr (Or.inr (dfvS_key hx))

/-- With the SIMD extension variant absent, the SIMD section only names
the SIMD library flag. -/
theorem simdArgs_keys_ext_none {s : RSpec} {c : List Directive} {x : Directive}
    (hc : simdArgs s = .ok c) (hext : s.simd_extension = none) (hx : x ∈ c) :
    x.1 = "OCTOTIGER_KOKKOS_SIMD_LIBRARY" := by
  unfold simdArgs at hc
  rw [hext] at hc
  split at hc
  · simp at hc
  · simp only [pure, Except.pure, Except.ok.injEq] at hc
    subst hc
    rcases List.mem_append.mp hx with hx | hx
    · exact dfvS_key hx
    · simp [dfvS] at hx

/-- Flag names emitted by the executor/task section. -/
theorem executorTaskArgs_key {s : RSpec} {x : Directive}
    (hx : x ∈ executorTaskArgs s) :
    x.1 = "OCTOTIGER_WITH_MONOPOLE_HOST_HPX_EXECUTOR" ∨
    x.1 = "OCTOTIGER_WITH_MULTIPOLE_HOST_HPX_EXECUTOR" ∨
    x.1 = "OCTOTIGER_WITH_HYDRO_HOST_HPX_EXECUTOR" ∨
    x.1 = "OCTOTIGER_WITH_KOKKOS_MULTIPOLE_TASKS" ∨
    x.1 = "OCTOTIGER_WITH_KOKKOS_MONOPOLE_TASKS" ∨
    x.1 = "OCTOTIGER_WITH_KOKKOS_HYDRO_TASKS" := by
  unfold executorTaskArgs at hx
  rcases List.mem_append.mp hx with hx | hx
  · rcases List.mem_append.mp hx with hx | hx
    · rcases List.mem_append.mp hx with hx | hx
      · rcases List.mem_append.mp hx with hx | hx
        · rcases List.mem_append.mp hx with hx | hx
          · exact Or.inl (dfvB_key hx)
          · exact Or.inr (Or.inl (dfvB_key hx))
        · exact Or.inr (Or.inr (Or.inl (dfvB_key hx)))
      · exact Or.inr (Or.inr (Or.inr (Or.inl (dfvS_key hx))))
    · exact Or.inr (Or.inr (Or.inr (Or.inr (Or.inl (dfvS_key hx)))))
  · exact Or.inr (Or.inr (Or.inr (Or.inr (Or.inr (dfvS_key hx)))))

/-- Flag names emitted by the Vc/target section. -/
theorem vcTargetArgs_key {s : RSpec} {x : Directive} (hx : x ∈ vcTargetArgs s) :
    x.1 = "OCTOTIGER_WITH_VC" ∨ x.1 = "OCTOTIGER_WITH_LEGACY_VC" ∨
    x.1 = "OCTOTIGER_WITH_CXX20" := by
  unfold vcTargetArgs at hx
  rcases List.mem_append.mp hx with hx | hx
  · simp at hx
    rcases hx with rfl | rfl
    · exact Or.inl rfl
    · exact Or.inr (Or.inl rfl)
  · split at hx
    · simp at hx
      exact Or.inr (Or.inr (by simp [hx]))
    · simp at hx

/-- Flag names emitted by the tests section. -/
theorem testArgs_key {s : RSpec} {rt : Bool} {f : List Directive} {x : Directive}
    (hf : testArgs s rt = .ok f) (hx : x ∈ f) :
    x.1 = "OCTOTIGER_WITH_TESTS" ∨ x.1 = "OCTOTIGER_WITH_BLAST_TEST" := by
  unfold testArgs at hf
  split at hf
  · simp at hf
  · simp only [pure, Except.pure, Except.ok.injEq] at hf
    subst hf
    simp at hx
    rcases hx with rfl | rfl
    · exact Or.inl rfl
    · exact Or.inr rfl

/-- Flag names emitted by the compute section. -/
theorem computeArgs_key {s : RSpec} {g : List Directive} {x : Directive}
    (hg : computeArgs s = .ok g) (hx : x ∈ g) :
    x.1 = "OCTOTIGER_WITH_FAST_FP_CONTRACT" ∨ x.1 = "OCTOTIGER_WITH_GRIDDIM" ∨
    x.1 = "OCTOTIGER_THETA_MINIMUM" ∨
    x.1 = "OCTOTIGER_WITH_MAX_NUMBER_FIELDS" ∨
    x.1 = "OCTOTIGER_DISABLE_ILIST" ∨ x.1 = "OCTOTIGER_ARCH_FLAG" := by
  simp only [computeArgs, exceptBind_ok] at hg
  obtain ⟨n, hn, hl⟩ := hg
  simp only [pure, Except.pure, Except.ok.injEq] at hl
  subst hl
  rcases List.mem_append.mp hx with hx | hx
  · rcases List.mem_append.mp hx with hx | hx
    · rcases List.mem_append.mp hx with hx | hx
      · exact Or.inl (dfvB_key hx)
      · simp at hx
        rcases hx with rfl | rfl | rfl
        · exact Or.inr (Or.inl rfl)
        · exact Or.inr (Or.inr (Or.inl rfl))
        · exact Or.inr (Or.inr (Or.inr (Or.inl rfl)))
    · split at hx <;> simp at hx <;>
        exact Or.inr (Or.inr (Or.inr (Or.inr (Or.inl (by simp [hx])))))
  · simp at hx
    exact Or.inr (Or.inr (Or.inr (Or.inr (Or.inr (by simp [hx])))))

/-- Flag names emitted by the closing section. -/
theorem miscArgs_key {s : RSpec} {x : Directive} (hx : x ∈ miscArgs s) :
    x.1 = "OCTOTIGER_WITH_UNBUFFERED_STDOUT" ∨
    x.1 = "CMAKE_EXPORT_COMPILE_COMMANDS" ∨
    x.1 = "OCTOTIGER_WITH_BOOST_MULTIPRECISION" ∨
    x.1 = "OCTOTIGER_WITH_CXX20" := by
  simp [miscArgs] at hx
  rcases hx with rfl | rfl | rfl | rfl
  · exact Or.inl rfl
  · exact Or.inr (Or.inl rfl)
  · exact Or.inr (Or.inr (Or.inl rfl))
  · exact Or.inr (Or.inr (Or.inr rfl))

/-- Inversion of a true task-above-1 test. -/
theorem gt1_true {x : String} (h : gt1 (some x) = true) :
    ∃ n, pyToInt x = some n ∧ 1 < n := by
  unfold gt1 at h
  simp only [Option.bind] at h
  cases hp : pyToInt x with
  | none =>
    rw [hp] at h
    simp at h
  | some n =>
    rw [hp] at h
    simp at h
    exact ⟨n, rfl, h⟩

/-- A present task count above 1 makes its precondition check raise. -/
theorem taskCheckOne_err_of_gt1 {name msg x : String}
    (h : gt1 (some x) = true) :
    taskCheckOne name (some x) msg = .error (.spackError msg) := by
  obtain ⟨n, hp, hn⟩ := gt1_true h
  simp [taskCheckOne, pyInt, hp, hn, exceptBind_pure_ok]

/-- A task count of one passes its precondition check. -/
theorem taskCheckOne_ok_one {name msg : String} :
    taskCheckOne name (some "1") msg = .ok () := rfl

/-- The task precheck of source lines 234-241 raises one of its three
dedicated errors whenever the HPX execution space is deselected at version
0.10.0 or later, the three task variants are present with the first two in
their declared domains, and some task count is above 1. -/
theorem taskPrecheck_err {s : RSpec} {mu mo hy : String}
    (hk : s.kokkos_hpx_kernels = some false)
    (hv : atLeast .v0100 s.version = true)
    (hmu : s.multipole_host_tasks = some mu)
    (hmud : mu ∈ ["1", "4", "16", "64"])
    (hmo : s.monopole_host_tasks = some mo) (hmod : mo ∈ ["1", "4", "16"])
    (hhy : s.hydro_host_tasks = some hy)
    (hgt : anyTaskGT1 s = true) :
    taskPrecheck s =
      .error (.spackError "multipole_host_tasks > 1 requires +kokkos_hpx_kernels") ∨
    taskPrecheck s =
      .error (.spackError "monopole_host_tasks > 1 requires +kokkos_hpx_kernels") ∨
    taskPrecheck s =
      .error (.spackError "hydro_host_tasks > 1 requires +kokkos_hpx_kernels") := by
  have hcond : (s.kokkos_hpx_kernels == some false &&
      atLeast .v0100 s.version) = true := by
    simp [hk, hv]
  unfold taskPrecheck
  rw [hcond, if_pos rfl, hmu, hmo, hhy]
  by_cases gmu : gt1 (some mu) = true
  · left
    rw [taskCheckOne_err_of_gt1 gmu]
    rfl
  · have hmu1 : mu = "1" := by
      simp only [List.mem_cons, List.not_mem_nil, or_false] at hmud
      rcases hmud with rfl | rfl | rfl | rfl
      · rfl
      · exact absurd rfl gmu
      · exact absurd rfl gmu
      · exact absurd rfl gmu
    subst hmu1
    rw [taskCheckOne_ok_one, exceptBind_pure_ok]
    by_cases gmo : gt1 (some mo) = true
    · right
      left
      rw [taskCheckOne_err_of_gt1 gmo]
      rfl
    · have hmo1 : mo = "1" := by
        simp only [List.mem_cons, List.not_mem_nil, or_false] at hmod
        rcases hmod with rfl | rfl | rfl
        · rfl
        · exact absurd rfl gmo
        · exact absurd rfl gmo
      subst hmo1
      rw [taskCheckOne_ok_one, exceptBind_pure_ok]
      have ghy : gt1 (some hy) = true := by
        unfold anyTaskGT1 at hgt
        rw [hmu, hmo, hhy] at hgt
        simp only [Bool.or_eq_true] at hgt
        rcases hgt with (h1 | h2) | h3
        · exact absurd h1 gmu
        · exact absurd h2 gmo
        · exact h3
      right
      right
      exact taskCheckOne_err_of_gt1 ghy

/-- Reference build environment used by the concrete resolutions (a gcc 11
toolchain on an x86_64 target). -/
def env0 : Env :=
  { compiler := "gcc", compilerMajor := 11, target := "x86_64",
    hipcc := "/opt/rocm/bin/hipcc", dpcpp_root := "/opt/dpcpp" }

/-- Available kokkos versions used by the concrete resolutions (ranks of
3.5.00, 3.6.01 and 4.1.00). -/
def kvs0 : List Nat := [3500, 3601, 4100]

/-- Extract the spec of a successful resolution (fallback for the error
case, never reached in the concrete instances below). -/
def specOrFallback (x : Except RError RSpec) : RSpec :=
  match x with
  | .ok r => r
  | .error _ =>
    { version := .master, sycl := none, cuda := none, rocm := none,
      kokkos := none, griddim := "8", theta_minimum := "0.34",
      kokkos_hpx_kernels := none, monopole_host_tasks := none,
      multipole_host_tasks := none, hydro_host_tasks := none,
      simd_library := none, simd_extension := none, fast_fp_contract := none,
      boost_multiprecision := false, cxx20 := false, cuda_arch := ["none"],
      amdgpu_target := ["none"], compiler := "gcc", compilerMajor := 11,
      target := "x86_64", hipcc := "", dpcpp_root := "", hasDpcpp := false,
      kokkosDep := none }

/-- Extract the directive list of a successful emission (nil fallback for
the error case, never reached in the concrete instances below). -/
def argsOrNil (x : Except EmitError (List Directive)) : List Directive :=
  match x with
  | .ok l => l
  | .error _ => []

/-- The violation messages aggregated at the cuda=true, rocm=true request
(the cuda_arch=none rule, the cuda/rocm rule and the rocm-without-kokkos
rule, in declaration order). -/
def c1msgs : List (Option String) :=
  [none, some "CUDA and ROCm are not compatible in Octo-Tiger.",
   some "ROCm support requires building with Kokkos for the correct arch flags."]

/-- C1, counterexample: resolving with overrides cuda=true and rocm=true
does fail with CONFLICT_RULE_VIOLATED, but the failure does not carry
exactly the message "CUDA and ROCm are not compatible": the authored
message of source line 178 reads "CUDA and ROCm are not compatible in
Octo-Tiger.", and two further rules (cuda with cuda_arch=none, rocm
without kokkos) fire and are aggregated alongside it. -/
theorem c1_exact_message_counterexample :
    resolve env0 kvs0 none { cuda := some true, rocm := some true } =
      .error (.conflictRuleViolated c1msgs) ∧
    some "CUDA and ROCm are not compatible" ∉ c1msgs := by
  constructor
  · rfl
  · decide

/-- C1, amended: resolution at overrides cuda=true and rocm=true fails
with CONFLICT_RULE_VIOLATED whose aggregated messages include the conflict
rule message "CUDA and ROCm are not compatible in Octo-Tiger." (source
lines 177-178), alongside the other violated rules' entries. -/
theorem c1_conflict_rule_violated :
    resolve env0 kvs0 none { cuda := some true, rocm := some true } =
      .error (.conflictRuleViolated c1msgs) ∧
    some "CUDA and ROCm are not compatible in Octo-Tiger." ∈ c1msgs := by
  constructor
  · rfl
  · decide

/-- C2: on every resolved spec at version 0.10.0 or later with the
kokkos_hpx_kernels toggle present and false, a task-count variant whose
value is above 1 makes directive emission fail with one of the three
dedicated precondition errors of source lines 236-241; the Except result
carries no directive list, so no partial list is produced. -/
theorem c2_emit_precondition {env : Env} {kvs : List Nat}
    {req : Option OVersion} {o : Overrides} {r : RSpec} {rt : Bool}
    (hres : resolve env kvs req o = .ok r)
    (hv : atLeast .v0100 r.version = true)
    (hk : r.kokkos_hpx_kernels = some false)
    (hgt : anyTaskGT1 r = true) :
    isEmitPrecondition (cmake_args r rt) := by
  obtain ⟨_, _, _, hdom, hca, _, _, _⟩ := resolve_ok_inv hres
  obtain ⟨⟨mu, hmu, hmud⟩, ⟨mo, hmo, hmod⟩, ⟨hy, hhy⟩⟩ := hdom hv
  obtain ⟨a, ha⟩ := cudaKokkosArgs_ok hca
  have hc := simdArgs_ne_v090 (v0100_ne_v090 hv)
  have htp := taskPrecheck_err hk hv hmu hmud hmo hmod hhy hgt
  rcases htp with htp | htp | htp
  · exact Or.inl (cmake_args_err_of_taskPrecheck ha hc htp)
  · exact Or.inr (Or.inl (cmake_args_err_of_taskPrecheck ha hc htp))
  · exact Or.inr (Or.inr (cmake_args_err_of_taskPrecheck ha hc htp))

/-- The resolved spec at 0.10.0 with kokkos on and multipole tasks 4. -/
def rC2 : RSpec := specOrFallback (resolve env0 kvs0 (some .v0100)
  { kokkos := some true, multipole_host_tasks := some "4" })

/-- Witness for C2 at the concrete 0.10.0 resolution with
multipole_host_tasks=4 and the HPX execution space off. -/
theorem c2_emit_precondition_witness : isEmitPrecondition (cmake_args rC2 false) :=
  @c2_emit_precondition env0 kvs0 (some .v0100)
    { kokkos := some true, multipole_host_tasks := some "4" } rC2 false
    (by rfl) (by rfl) (by rfl) (by rfl)

/-- C3: the kokkos dependency is resolved only under kokkos=true; the
active version constraint at version 0.9.0 bounds the kokkos version above
by 3.6.01 (source line 132) and at 0.10.0 or later bounds it below by
3.6.01 (source line 133), so any resolved kokkos child at 0.10.0 or later
has version at least 3.6.01. -/
theorem c3_kokkos_narrowing {env : Env} {kvs : List Nat}
    {req : Option OVersion} {o : Overrides} {r : RSpec}
    (hres : resolve env kvs req o = .ok r) :
    (r.kokkos ≠ some true → r.kokkosDep = none) ∧
    (∀ k, r.kokkosDep = some k →
      (r.version = .v090 → k.version ≤ k3601) ∧
      (atLeast .v0100 r.version = true → k3601 ≤ k.version)) := by
  obtain ⟨_, _, _, _, _, _, hkhk, hkdep⟩ := resolve_ok_inv hres
  constructor
  · intro hne
    have h1 : (r.kokkos == some true) = false := by simpa using hne
    have h2 : (r.kokkos_hpx_kernels == some true) = false := by
      simp [hkhk hne]
    exact resolveKokkosDep_ok_none hkdep h1 h2
  · intro k hk
    rw [hk] at hkdep
    have hmem := resolveKokkosDep_some_mem hkdep
    have hkok : r.kokkos = some true := by
      by_contra hne
      have h1 : (r.kokkos == some true) = false := by simpa using hne
      have h2 : (r.kokkos_hpx_kernels == some true) = false := by
        simp [hkhk hne]
      have := resolveKokkosDep_ok_none hkdep h1 h2
      simp at this
    constructor
    · intro hv
      have he : ((r.version == OVersion.v090 && r.kokkos == some true),
          (⟨none, some k3601⟩ : VRange)) ∈ kokkosVersionEdges r.version
            r.kokkos r.kokkos_hpx_kernels r.sycl r.cuda r.rocm r.compiler := by
        unfold kokkosVersionEdges
        exact List.mem_cons_self _ _
      have hact : (r.version == OVersion.v090 && r.kokkos == some true) = true := by
        simp [hv, hkok]
      have hm := hmem _ he hact
      simpa [VRange.mem] using hm
    · intro hv
      have he : ((atLeast .v0100 r.version && r.kokkos == some true),
          (⟨some k3601, none⟩ : VRange)) ∈ kokkosVersionEdges r.version
            r.kokkos r.kokkos_hpx_kernels r.sycl r.cuda r.rocm r.compiler := by
        unfold kokkosVersionEdges
        exact List.mem_cons_of_mem _ (List.mem_cons_self _ _)
      have hact : (atLeast .v0100 r.version && r.kokkos == some true) = true := by
        simp [hv, hkok]
      have hm := hmem _ he hact
      simpa [VRange.mem] using hm

/-- The resolved spec at 0.10.0 with kokkos on. -/
def rC3 : RSpec := specOrFallback (resolve env0 kvs0 (some .v0100)
  { kokkos := some true })

/-- Witness for C3 at the concrete 0.10.0+kokkos resolution: the resolved
kokkos child is 4.1.00, which is at least 3.6.01. -/
theorem c3_kokkos_narrowing_witness :
    rC3.kokkosDep = some ⟨4100, false, false⟩ ∧ k3601 ≤ (4100 : Nat) :=
  ⟨by rfl,
   ((@c3_kokkos_narrowing env0 kvs0 (some .v0100) { kokkos := some true } rC3
      (by rfl)).2 ⟨4100, false, false⟩ (by rfl)).2 (by rfl)⟩

/-- Flag names emitted by the CUDA/Kokkos section in all cases. -/
theorem cudaKokkosArgs_key {s : RSpec} {a : List Directive} {x : Directive}
    (ha : cudaKokkosArgs s = .ok a) (hx : x ∈ a) :
    x.1 = "OCTOTIGER_WITH_CUDA" ∨ x.1 = "OCTOTIGER_WITH_KOKKOS" ∨
    x.1 = "OCTOTIGER_CUDA_ARCH" ∨ x.1 = "CMAKE_CUDA_ARCHITECTURES" := by
  unfold cudaKokkosArgs at ha
  split at ha
  · rcases hl : s.cuda_arch with _ | ⟨arch, rest⟩
    · rw [hl] at ha
      simp at ha
    · rw [hl] at ha
      simp only [List.head?_cons] at ha
      split at ha
      · simp only [pure, Except.pure, Except.ok.injEq] at ha
        subst ha
        rcases List.mem_append.mp hx with hx | hx
        · exact Or.inl (dfvB_key hx)
        · exact Or.inr (Or.inl (dfvB_key hx))
      · simp only [pure, Except.pure, Except.ok.injEq] at ha
        subst ha
        rcases List.mem_append.mp hx with hx | hx
        · rcases List.mem_append.mp hx with hx | hx
          · exact Or.inl (dfvB_key hx)
          · exact Or.inr (Or.inl (dfvB_key hx))
        · simp at hx
          rcases hx with rfl | rfl
          · exact Or.inr (Or.inr (Or.inl rfl))
          · exact Or.inr (Or.inr (Or.inr rfl))
  · simp only [pure, Except.pure, Except.ok.injEq] at ha
    subst ha
    rcases List.mem_append.mp hx with hx | hx
    · exact Or.inl (dfvB_key hx)
    · exact Or.inr (Or.inl (dfvB_key hx))

/-- With rocm absent, the HIP/SYCL section only names the compiler
override flag. -/
theorem hipSyclArgs_keys_rocm_none {s : RSpec} {x : Directive}
    (hr : s.rocm = none) (hx : x ∈ hipSyclArgs s) :
    x.1 = "CMAKE_CXX_COMPILER" := by
  unfold hipSyclArgs at hx
  rw [hr] at hx
  simp [dfvB] at hx
  simp [hx.2]

/-- C4: a variant whose activation condition is false at the resolved
version is absent from the resolved variant mapping (sycl below 0.10.0,
cuda below 0.7.0, rocm / kokkos / simd_extension below 0.9.0), and an
absent variant contributes no directive: with cuda absent no
OCTOTIGER_WITH_CUDA or OCTOTIGER_CUDA_ARCH directive appears in a
successful emission, with rocm absent no OCTOTIGER_WITH_HIP directive,
and with simd_extension absent no OCTOTIGER_KOKKOS_SIMD_EXTENSION
directive. -/
theorem c4_inactive_variant_absent {env : Env} {kvs : List Nat}
    {req : Option OVersion} {o : Overrides} {r : RSpec} {rt : Bool}
    {l : List Directive} (hres : resolve env kvs req o = .ok r) :
    (atLeast .v0100 r.version = false → r.sycl = none) ∧
    (atLeast .v070 r.version = false → r.cuda = none) ∧
    (atLeast .v090 r.version = false →
       r.rocm = none ∧ r.kokkos = none ∧ r.simd_extension = none) ∧
    (cmake_args r rt = .ok l →
       (r.cuda = none → ∀ v, ("OCTOTIGER_WITH_CUDA", v) ∉ l ∧
          ("OCTOTIGER_CUDA_ARCH", v) ∉ l) ∧
       (r.rocm = none → ∀ v, ("OCTOTIGER_WITH_HIP", v) ∉ l) ∧
       (r.simd_extension = none → ∀ v,
          ("OCTOTIGER_KOKKOS_SIMD_EXTENSION", v) ∉ l)) := by
  obtain ⟨h1, h2, h3, _, _, _, _, _⟩ := resolve_ok_inv hres
  refine ⟨h1, h2, h3, ?_⟩
  intro hok
  obtain ⟨a, c, f, g, ha, hc, _, hf, hg, hl⟩ := cmake_args_ok_inv hok
  subst hl
  refine ⟨?_, ?_, ?_⟩
  · intro hcu v
    constructor
    · intro hmem
      simp only [List.mem_append] at hmem
      rcases hmem with (((((((hmem | hmem) | hmem) | hmem) | hmem) | hmem)
        | hmem) | hmem)
      · have := cudaKokkosArgs_keys_cuda_none hcu ha hmem
        simp at this
      · have := hipSyclArgs_key hmem
        simp at this
      · have := simdArgs_key hc hmem
        simp at this
      · have := executorTaskArgs_key hmem
        simp at this
      · have := vcTargetArgs_key hmem
        simp at this
      · have := testArgs_key hf hmem
        simp at this
      · have := computeArgs_key hg hmem
        simp at this
      · have := miscArgs_key hmem
        simp at this
    · intro hmem
      simp only [List.mem_append] at hmem
      rcases hmem with (((((((hmem | hmem) | hmem) | hmem) | hmem) | hmem)
        | hmem) | hmem)
      · have := cudaKokkosArgs_keys_cuda_none hcu ha hmem
        simp at this
      · have := hipSyclArgs_key hmem
        simp at this
      · have := simdArgs_key hc hmem
        simp at this
      · have := executorTaskArgs_key hmem
        simp at this
      · have := vcTargetArgs_key hmem
        simp at this
      · have := testArgs_key hf hmem
        simp at this
      · have := computeArgs_key hg hmem
        simp at this
      · have := miscArgs_key hmem
        simp at this
  · intro hro v hmem
    simp only [List.mem_append] at hmem
    rcases hmem with (((((((hmem | hmem) | hmem) | hmem) | hmem) | hmem)
      | hmem) | hmem)
    · have := cudaKokkosArgs_key ha hmem
      simp at this
    · have := hipSyclArgs_keys_rocm_none hro hmem
      simp at this
    · have := simdArgs_key hc hmem
      simp at this
    · have := executorTaskArgs_key hmem
      simp at this
    · have := vcTargetArgs_key hmem
      simp at this
    · have := testArgs_key hf hmem
      simp at this
    · have := computeArgs_key hg hmem
      simp at this
    · have := miscArgs_key hmem
      simp at this
  · intro hext v hmem
    simp only [List.mem_append] at hmem
    rcases hmem with (((((((hmem | hmem) | hmem) | hmem) | hmem) | hmem)
      | hmem) | hmem)
    · have := cudaKokkosArgs_key ha hmem
      simp at this
    · have := hipSyclArgs_key hmem
      simp at this
    · have := simdArgs_keys_ext_none hc hext hmem
      simp at this
    · have := executorTaskArgs_key hmem
      simp at this
    · have := vcTargetArgs_key hmem
      simp at this
    · have := testArgs_key hf hmem
      simp at this
    · have := computeArgs_key hg hmem
      simp at this
    · have := miscArgs_key hmem
      simp at this

/-- The resolved spec at 0.8.0 with all defaults. -/
def rC4 : RSpec := specOrFallback (resolve env0 kvs0 (some .v080) {})

/-- The directives emitted for the default 0.8.0 resolution. -/
def lC4 : List Directive := argsOrNil (cmake_args rC4 false)

/-- Witness for C4 at the concrete default 0.8.0 resolution: sycl and rocm
are absent from the mapping and no HIP directive is emitted. -/
theorem c4_inactive_variant_absent_witness :
    rC4.sycl = none ∧ rC4.rocm = none ∧ ("OCTOTIGER_WITH_HIP", "ON") ∉ lC4 := by
  have h := @c4_inactive_variant_absent env0 kvs0 (some .v080) {} rC4 false lC4
    (by rfl)
  exact ⟨h.1 (by rfl), (h.2.2.1 (by rfl)).1,
    (h.2.2.2 (by rfl)).2.1 (by rfl) "ON"⟩

/-- C5: resolving at version 0.8.0 (where the rocm variant's activation
condition "@0.9.0:" is false) with the override rocm=true fails with
INVALID_VARIANT_VALUE for rocm instead of silently ignoring the
override. -/
theorem c5_inactive_override_rejected :
    resolve env0 kvs0 (some .v080) { rocm := some true } =
      .error (.invalidVariantValue "rocm") := by
  rfl

/-- C6: the SIMD variant dispatch is version-dependent: at exactly version
0.9.0, DISCOVER emits the force-scalar toggle OFF and SCALAR emits it ON,
while any other selection fails emission; at any other version the variant
maps to the OCTOTIGER_KOKKOS_SIMD_EXTENSION define (and simd_library to
OCTOTIGER_KOKKOS_SIMD_LIBRARY). -/
theorem c6_simd_version_dispatch {s : RSpec} {rt : Bool} {l : List Directive} :
    (s.version = .v090 → s.simd_extension = some "DISCOVER" →
       cmake_args s rt = .ok l →
       ("OCTOTIGER_WITH_FORCE_SCALAR_KOKKOS_SIMD", "OFF") ∈ l) ∧
    (s.version = .v090 → s.simd_extension = some "SCALAR" →
       cmake_args s rt = .ok l →
       ("OCTOTIGER_WITH_FORCE_SCALAR_KOKKOS_SIMD", "ON") ∈ l) ∧
    (s.version = .v090 → ∀ x, s.simd_extension = some x →
       x ≠ "DISCOVER" → x ≠ "SCALAR" → isOkB (cmake_args s rt) = false) ∧
    ((s.version == OVersion.v090) = false → cmake_args s rt = .ok l →
       (∀ x, s.simd_extension = some x →
          ("OCTOTIGER_KOKKOS_SIMD_EXTENSION", x) ∈ l) ∧
       (∀ y, s.simd_library = some y →
          ("OCTOTIGER_KOKKOS_SIMD_LIBRARY", y) ∈ l)) := by
  refine ⟨?_, ?_, ?_, ?_⟩
  · intro hv hx hok
    obtain ⟨a, c, f, g, ha, hc, _, hf, hg, hl⟩ := cmake_args_ok_inv hok
    rw [simdArgs_v090_discover hv hx] at hc
    have hc2 : c = [("OCTOTIGER_WITH_FORCE_SCALAR_KOKKOS_SIMD", "OFF")] :=
      (Except.ok.inj hc).symm
    subst hc2
    subst hl
    simp [List.mem_append]
  · intro hv hx hok
    obtain ⟨a, c, f, g, ha, hc, _, hf, hg, hl⟩ := cmake_args_ok_inv hok
    rw [simdArgs_v090_scalar hv hx] at hc
    have hc2 : c = [("OCTOTIGER_WITH_FORCE_SCALAR_KOKKOS_SIMD", "ON")] :=
      (Except.ok.inj hc).symm
    subst hc2
    subst hl
    simp [List.mem_append]
  · intro hv x hx h1 h2
    cases hres : cmake_args s rt with
    | error e => rfl
    | ok lr =>
      exfalso
      obtain ⟨a, c, f, g, ha, hc, _, _, _, _⟩ := cmake_args_ok_inv hres
      have hbad1 : s.simd_extension ≠ some "DISCOVER" := by
        rw [hx]
        simp [h1]
      have hbad2 : s.simd_extension ≠ some "SCALAR" := by
        rw [hx]
        simp [h2]
      rw [simdArgs_v090_bad hv hbad1 hbad2] at hc
      simp at hc
  · intro hne hok
    obtain ⟨a, c, f, g, ha, hc, _, hf, hg, hl⟩ := cmake_args_ok_inv hok
    rw [simdArgs_ne_v090 hne] at hc
    have hc2 : c = dfvS "OCTOTIGER_KOKKOS_SIMD_LIBRARY" s.simd_library ++
        dfvS "OCTOTIGER_KOKKOS_SIMD_EXTENSION" s.simd_extension :=
      (Except.ok.inj hc).symm
    subst hc2
    subst hl
    constructor
    · intro x hx
      simp [List.mem_append, dfvS, hx]
    · intro y hy
      simp [List.mem_append, dfvS, hy]

/-- A spec at version 0.9.0 with the SIMD default DISCOVER. -/
def sC6 : RSpec :=
  { version := .v090, sycl := none, cuda := some false, rocm := some false,
    kokkos := some true, griddim := "8", theta_minimum := "0.34",
    kokkos_hpx_kernels := some false, monopole_host_tasks := none,
    multipole_host_tasks := none, hydro_host_tasks := none,
    simd_library := none, simd_extension := some "DISCOVER",
    fast_fp_contract := some false, boost_multiprecision := false,
    cxx20 := false, cuda_arch := ["none"], amdgpu_target := ["none"],
    compiler := "gcc", compilerMajor := 11, target := "x86_64", hipcc := "",
    dpcpp_root := "", hasDpcpp := false,
    kokkosDep := some ⟨3601, false, false⟩ }

/-- The directives emitted for the 0.9.0 DISCOVER spec. -/
def lC6 : List Directive := argsOrNil (cmake_args sC6 false)

/-- The directives emitted for the 0.10.0+kokkos resolution. -/
def lC3 : List Directive := argsOrNil (cmake_args rC3 false)

/-- Witness for C6: at 0.9.0 with DISCOVER the force-scalar toggle OFF is
emitted, and at 0.10.0 the same variant maps to the SIMD extension
define instead. -/
theorem c6_simd_version_dispatch_witness :
    ("OCTOTIGER_WITH_FORCE_SCALAR_KOKKOS_SIMD", "OFF") ∈ lC6 ∧
    ("OCTOTIGER_KOKKOS_SIMD_EXTENSION", "DISCOVER") ∈ lC3 :=
  ⟨(@c6_simd_version_dispatch sC6 false lC6).1 (by rfl) (by rfl) (by rfl),
   ((@c6_simd_version_dispatch rC3 false lC3).2.2.2 (by rfl) (by rfl)).1
     "DISCOVER" (by rfl)⟩

/-- C7: directive emission is a pure function of the resolution result and
the run_tests flag: two emissions from the same resolved spec yield the
identical ordered directive sequence. -/
theorem c7_emit_deterministic {s1 s2 : RSpec} {rt1 rt2 : Bool}
    (hs : s1 = s2) (hrt : rt1 = rt2) : cmake_args s1 rt1 = cmake_args s2 rt2 := by
  rw [hs, hrt]

/-- Witness for C7 at the concrete 0.9.0 DISCOVER spec. -/
theorem c7_emit_deterministic_witness :
    cmake_args sC6 false = cmake_args sC6 false :=
  c7_emit_deterministic rfl rfl

/-- Rank encoding of the hpx-kokkos branch version master, above every
numbered release. -/
def hkMaster : Nat := 999999

/-- Modelled from the spec: the section 8 tie-break example — two edges
onto the same dependency, one always active with the unconstrained range
and one active under sycl pinning exactly the master version. -/
def hpxKokkosScenarioEdges (sycl : Bool) : List (Bool × VRange) :=
  [(true, ⟨none, none⟩), (sycl, ⟨some hkMaster, some hkMaster⟩)]

/-- C8: with sycl selected both edges are active and edge resolution picks
the narrower exact-master constraint by the tie-break rule instead of
raising CONFLICTING_EDGES. -/
theorem c8_narrower_edge_wins :
    resolveEdgesRange "hpx-kokkos" (hpxKokkosScenarioEdges true) =
      .ok ⟨some hkMaster, some hkMaster⟩ := by
  rfl

/-- C9: on every resolved spec with cuda selected the cuda_arch selection
is non-empty, its first value is not the sentinel "none" (the conflict of
source line 171 forbids +cuda with cuda_arch=none), and a successful
emission contains both cuda-arch directives built from that first value. -/
theorem c9_cuda_arch_directives {env : Env} {kvs : List Nat}
    {req : Option OVersion} {o : Overrides} {r : RSpec} {rt : Bool}
    {l : List Directive} (hres : resolve env kvs req o = .ok r)
    (hc : r.cuda = some true) :
    r.cuda_arch ≠ [] ∧
    (∀ arch, r.cuda_arch.head? = some arch → arch ≠ "none") ∧
    (∀ arch, r.cuda_arch.head? = some arch → cmake_args r rt = .ok l →
       ("OCTOTIGER_CUDA_ARCH", "sm_" ++ arch) ∈ l ∧
       ("CMAKE_CUDA_ARCHITECTURES", arch) ∈ l) := by
  obtain ⟨_, _, _, _, hca, hviol, _, _⟩ := resolve_ok_inv hres
  have hnone := cuda_arch_no_none hviol hc
  have hhd : ∀ arch, r.cuda_arch.head? = some arch → arch ≠ "none" := by
    intro arch hh hcontra
    subst hcontra
    rcases hl : r.cuda_arch with _ | ⟨x, xs⟩
    · rw [hl] at hh
      simp at hh
    · rw [hl] at hh
      simp at hh
      subst hh
      rw [hl] at hnone
      simp at hnone
  refine ⟨hca, hhd, ?_⟩
  intro arch hh hok
  obtain ⟨a, c, f, g, ha, hc2, _, hf, hg, hl⟩ := cmake_args_ok_inv hok
  have hne : (arch == "none") = false := by
    simpa using hhd arch hh
  have hcbeq : (r.cuda == some true) = true := by simp [hc]
  unfold cudaKokkosArgs at ha
  simp only [hcbeq, hh, hne, if_true, Bool.false_eq_true, if_false, pure,
    Except.pure, Except.ok.injEq] at ha
  subst ha
  subst hl
  constructor
  · simp [List.mem_append]
  · simp [List.mem_append]

/-- The resolved spec at 0.8.0 with cuda on and cuda_arch 70. -/
def rC9 : RSpec := specOrFallback (resolve env0 kvs0 (some .v080)
  { cuda := some true, cuda_arch := some ["70"] })

/-- The directives emitted for the cuda resolution. -/
def lC9 : List Directive := argsOrNil (cmake_args rC9 false)

/-- Witness for C9 at the concrete cuda_arch=70 resolution. -/
theorem c9_cuda_arch_directives_witness :
    rC9.cuda_arch.head? = some "70" ∧
    ("OCTOTIGER_CUDA_ARCH", "sm_70") ∈ lC9 ∧
    ("CMAKE_CUDA_ARCHITECTURES", "70") ∈ lC9 := by
  have h := @c9_cuda_arch_directives env0 kvs0 (some .v080)
    { cuda := some true, cuda_arch := some ["70"] } rC9 false lC9
    (by rfl) (by rfl)
  have hm := h.2.2 "70" (by rfl) (by rfl)
  exact ⟨by rfl, hm.1, hm.2⟩

/-- A spec at version 0.8.0 whose griddim does not parse as an integer. -/
def sC10 : RSpec :=
  { version := .v080, sycl := none, cuda := some false, rocm := none,
    kokkos := none, griddim := "foo", theta_minimum := "0.34",
    kokkos_hpx_kernels := none, monopole_host_tasks := none,
    multipole_host_tasks := none, hydro_host_tasks := none,
    simd_library := none, simd_extension := none, fast_fp_contract := none,
    boost_multiprecision := false, cxx20 := false, cuda_arch := ["none"],
    amdgpu_target := ["none"], compiler := "gcc", compilerMajor := 11,
    target := "x86_64", hipcc := "", dpcpp_root := "", hasDpcpp := false,
    kokkosDep := none }

/-- C10, counterexample: with tests disabled a griddim value of "foo" is
not emitted as a directive — the source's `int(griddim)` at line 266
raises ValueError first, so emission returns an error and no directive
list at all. -/
theorem c10_any_griddim_counterexample :
    cmake_args sC10 false = .error (.valueError "foo") := by
  rfl

/-- C10, amended: with tests enabled and griddim outside {8, 16} emission
fails with an error instead of returning a directive list; every
successful emission (tests on or off) contains the
-DOCTOTIGER_WITH_GRIDDIM=(value) directive; but a griddim value that does
not parse as an integer always fails emission (at the ilist computation of
source line 266) rather than being emitted. -/
theorem c10_griddim_gate {s : RSpec} {rt : Bool} {l : List Directive} :
    (rt = true → s.griddim ≠ "8" → s.griddim ≠ "16" →
       isOkB (cmake_args s rt) = false) ∧
    (cmake_args s rt = .ok l → ("OCTOTIGER_WITH_GRIDDIM", s.griddim) ∈ l) ∧
    (pyToInt s.griddim = none → isOkB (cmake_args s rt) = false) := by
  refine ⟨?_, ?_, ?_⟩
  · intro hrt h8 h16
    subst hrt
    cases hres : cmake_args s true with
    | error e => rfl
    | ok lr =>
      exfalso
      obtain ⟨a, c, f, g, _, _, _, hf, _, _⟩ := cmake_args_ok_inv hres
      rw [testArgs_err h8 h16] at hf
      simp at hf
  · intro hok
    obtain ⟨a, c, f, g, _, _, _, _, hg, hl⟩ := cmake_args_ok_inv hok
    subst hl
    have hm := computeArgs_ok_mem hg
    exact List.mem_append.mpr (Or.inl (List.mem_append.mpr (Or.inr hm)))
  · intro hp
    cases hres : cmake_args s rt with
    | error e => rfl
    | ok lr =>
      exfalso
      obtain ⟨a, c, f, g, _, _, _, _, hg, _⟩ := cmake_args_ok_inv hres
      rw [computeArgs_err hp] at hg
      simp at hg

/-- The non-integer-griddim spec with griddim 32 instead. -/
def sC10b : RSpec := { sC10 with griddim := "32" }

/-- Witness for C10 amended: griddim 32 with tests on fails emission,
griddim "foo" fails emission even with tests off, and the successful
0.9.0 emission carries its griddim directive. -/
theorem c10_griddim_gate_witness :
    isOkB (cmake_args sC10b true) = false ∧
    isOkB (cmake_args sC10 false) = false ∧
    ("OCTOTIGER_WITH_GRIDDIM", "8") ∈ lC6 :=
  ⟨(@c10_griddim_gate sC10b true []).1 rfl (by simp [sC10b, sC10])
      (by simp [sC10b, sC10]),
   (@c10_griddim_gate sC10 false []).2.2 (by rfl),
   (@c10_griddim_gate sC6 false lC6).2.1 (by rfl)⟩
